import Mathlib

/-!
# RenderSystem

A shallow embedding of `src/RenderSystem.cpp` of the platformer repository:
the constructor, the destructor, `init`, `render` and `loadTexture` of the
class `RenderSystem`, followed by the properties established about them.

Conventions of the embedding.

* A C `int` is an `Int` kept in the range `[-2^31, 2^31)`; a `uint32_t` is a
  natural number.  Every arithmetic step is written with the conversions the
  C++ expression performs (`toUInt32`, `toInt32`), so wrap-around is explicit.
* Calls into SDL, SDL_image, the C library and the `FrameTimer` class are
  recorded, in program order, as a list of `Event`s.
* What the backend answers to a call is an input of the embedded function.
-/

namespace Platformer

/-! ## Machine integers -/

/-- Conversion of an integer value to `uint32_t`: reduction modulo `2^32`. -/
def toUInt32 (v : Int) : Int := v % 4294967296

/-- Conversion of an integer value to a 32-bit two's complement `int`. -/
def toInt32 (v : Int) : Int :=
  if v % 4294967296 < 2147483648 then v % 4294967296 else v % 4294967296 - 4294967296

/-- The values a C `int` can hold. -/
def isInt32 (v : Int) : Prop := -2147483648 ≤ v ∧ v < 2147483648

instance (v : Int) : Decidable (isInt32 v) := by
  unfold isInt32; infer_instance

/-! ## Rectangles -/

/-- The `SDL_Rect` of SDL2: four `int` fields. -/
structure SDL_Rect where
  x : Int
  y : Int
  w : Int
  h : Int
deriving DecidableEq, Repr

/-- The lambda `blockToWorld` of `RenderSystem::render`: each field is
multiplied in place by the `uint32_t` member `bwScale`.  The `int` operand is
converted to `uint32_t`, the product is taken modulo `2^32` and converted back
to `int` by the assignment. -/
def blockToWorld (bwScale : Nat) (rect : SDL_Rect) : SDL_Rect :=
  { x := toInt32 (toUInt32 (toUInt32 rect.x * (bwScale : Int)))
    y := toInt32 (toUInt32 (toUInt32 rect.y * (bwScale : Int)))
    w := toInt32 (toUInt32 (toUInt32 rect.w * (bwScale : Int)))
    h := toInt32 (toUInt32 (toUInt32 rect.h * (bwScale : Int))) }

/-- The lambda `worldToSDL` of `RenderSystem::render`:
`rect.y = height - rect.y - bwScale`, evaluated in `uint32_t` and converted
back to `int` by the assignment. -/
def worldToSDL (height bwScale : Nat) (rect : SDL_Rect) : SDL_Rect :=
  { rect with
    y := toInt32 (toUInt32 (toUInt32 ((height : Int) - toUInt32 rect.y) - (bwScale : Int))) }

/-- The `SDL_RectEmpty` of SDL2 (on a non-null pointer). -/
def SDL_RectEmpty (r : SDL_Rect) : Bool := decide (r.w ≤ 0) || decide (r.h ≤ 0)

/-- The `SDL_IntersectRect` of SDL2 (`SDL_rect.c`) for non-null arguments.  The
third argument is the content of `*result` before the call; the function
returns the truth value and the content of `*result` after the call.  When
either input is empty only `w` and `h` of `*result` are written.  The `int`
additions and subtractions are reduced to 32 bits. -/
def SDL_IntersectRect (A B result : SDL_Rect) : Bool × SDL_Rect :=
  if SDL_RectEmpty A || SDL_RectEmpty B then
    (false, { result with w := 0, h := 0 })
  else
    -- Horizontal intersection
    let Amin := A.x
    let Amax := toInt32 (Amin + A.w)
    let Bmin := B.x
    let Bmax := toInt32 (Bmin + B.w)
    let Amin := if Bmin > Amin then Bmin else Amin
    let rx := Amin
    let Amax := if Bmax < Amax then Bmax else Amax
    let rw := toInt32 (Amax - Amin)
    -- Vertical intersection
    let Amin := A.y
    let Amax := toInt32 (Amin + A.h)
    let Bmin := B.y
    let Bmax := toInt32 (Bmin + B.h)
    let Amin := if Bmin > Amin then Bmin else Amin
    let ry := Amin
    let Amax := if Bmax < Amax then Bmax else Amax
    let rh := toInt32 (Amax - Amin)
    let out : SDL_Rect := { x := rx, y := ry, w := rw, h := rh }
    (!SDL_RectEmpty out, out)

/-! ## Backend calls -/

/-- A backend object (window, renderer, surface, texture) is named by a number. -/
abbrev Handle := Nat

/-- The diagnostic lines the file prints with `printf`. -/
inductive Diag where
  | sdlInitFailed
  | imgInitFailed
  | windowFailed
  | rendererFailed
  | imageLoadFailed
  | textureCreateFailed
deriving DecidableEq, Repr

/-- The calls `RenderSystem.cpp` makes into SDL, SDL_image, the C library and
`FrameTimer`, with their arguments and, for the calls whose result the code
inspects, their result. -/
inductive Event where
  | SDL_Init (ret : Int)
  | IMG_Init (ret : Nat)
  | SDL_CreateWindow (width height : Int) (res : Option Handle)
  | SDL_CreateRenderer (window : Handle) (software : Bool) (res : Option Handle)
  | printf (d : Diag)
  | newFrameTimer (windowSize : Nat)
  | frameTimerStart
  | deleteFrameTimer
  | SDL_DestroyWindow (window : Handle)
  | SDL_DestroyRenderer (renderer : Handle)
  | IMG_Quit
  | SDL_Quit
  | SDL_SetRenderDrawColor (r g b a : Nat)
  | SDL_RenderClear
  | SDL_RenderDrawRect (rect : SDL_Rect)
  | SDL_RenderPresent
  | frameTimerTick
  | coutFps
  | IMG_Load (path : String) (res : Option Handle)
  | SDL_CreateTextureFromSurface (surface : Handle) (res : Option Handle)
  | SDL_FreeSurface (surface : Handle)
deriving DecidableEq, Repr

/-- The operations of the class `FrameTimer` that `RenderSystem.cpp` calls.  The
class is declared in a header outside this file, so it is a parameter of the
embedding; the value of `getFps` is a wall-clock quantity and is not modelled. -/
structure FrameTimerOps (T : Type) where
  create : Nat → T
  start : T → T
  tick : T → T
  getFrameCount : T → Nat

/-- The data members of `RenderSystem` that the file reads or writes.  The class
is declared in `RenderSystem.hpp`; `width`, `height` and `bwScale` have the
type `uint32_t` of the constructor parameters that initialise them, the three
pointer members are `none` when null. -/
structure RenderSystem (T : Type) where
  width : Nat
  height : Nat
  bwScale : Nat
  title : String
  window : Option Handle
  renderer : Option Handle
  frameTimer : Option T

/-! ## `RenderSystem::render` -/

/-- One iteration of the platform loop of `render`.  The state is the local
variable `intersectRect`, which outlives the iteration, and the calls made so
far. -/
def renderPlatform (height bwScale : Nat) (cam : SDL_Rect)
    (st : SDL_Rect × List Event) (p : SDL_Rect) : SDL_Rect × List Event :=
  let worldRect := blockToWorld bwScale p
  let res := SDL_IntersectRect worldRect cam st.1
  if res.1 = true then
    let intersectRect := worldToSDL height bwScale res.2
    (intersectRect, st.2 ++ [Event.SDL_RenderDrawRect intersectRect])
  else
    (res.2, st.2)

/-- `RenderSystem::render(scene, cam)`.  The scene is the sequence of the
platforms' block rectangles, the camera is its view rectangle, and
`intersectRect0` is the indeterminate initial content of the local variable
`intersectRect`.  The result is `none` when `frameTimer` is null (the
dereference `frameTimer->tick()` has no defined behaviour). -/
def RenderSystem.render {T : Type} (ops : FrameTimerOps T) (rs : RenderSystem T)
    (scene : List SDL_Rect) (cam : SDL_Rect) (intersectRect0 : SDL_Rect) :
    Option (RenderSystem T × List Event) :=
  -- Clear screen
  let evs := [Event.SDL_SetRenderDrawColor 0x00 0x00 0x00 0xFF, Event.SDL_RenderClear]
  -- Draw all platforms
  let evs := evs ++ [Event.SDL_SetRenderDrawColor 0x7d 0xc1 0xf0 0xFF]
  let st := scene.foldl (renderPlatform rs.height rs.bwScale cam) (intersectRect0, evs)
  let evs := st.2 ++ [Event.SDL_RenderPresent]
  -- Update frame time
  match rs.frameTimer with
  | none => none
  | some t =>
    let t := ops.tick t
    let evs := evs ++ [Event.frameTimerTick]
    let evs := if ops.getFrameCount t % 100 = 0 then evs ++ [Event.coutFps] else evs
    some ({ rs with frameTimer := some t }, evs)

/-- The rectangles of the outline-draw calls of a call sequence, in order. -/
def drawCalls : List Event → List SDL_Rect
  | [] => []
  | Event.SDL_RenderDrawRect r :: evs => r :: drawCalls evs
  | _ :: evs => drawCalls evs

/-- The rectangles drawn by one call of `render` (the empty list when `render`
has no result). -/
def renderDraws {T : Type} (ops : FrameTimerOps T) (rs : RenderSystem T)
    (scene : List SDL_Rect) (cam : SDL_Rect) (intersectRect0 : SDL_Rect) : List SDL_Rect :=
  match rs.render ops scene cam intersectRect0 with
  | some (_, evs) => drawCalls evs
  | none => []

/-- Modelled from the spec: the class `FrameTimer` (its header and source are
not part of `RenderSystem.cpp`).  Section 4.1: `start` resets the frame count
to zero, `tick` increments the frame counter, `getFrameCount` is the count of
ticks since `start`; the sample window size is fixed at construction. -/
structure FrameTimer where
  windowSize : Nat
  frameCount : Nat
deriving DecidableEq, Repr

/-- Modelled from the spec: the operations of `FrameTimer` (section 4.1). -/
def FrameTimer.ops : FrameTimerOps FrameTimer where
  create := fun n => { windowSize := n, frameCount := 0 }
  start := fun t => { t with frameCount := 0 }
  tick := fun t => { t with frameCount := t.frameCount + 1 }
  getFrameCount := fun t => t.frameCount

/-! ## `RenderSystem::RenderSystem`, `RenderSystem::init`, `RenderSystem::~RenderSystem` -/

/-- `RenderSystem::RenderSystem(width, height, bwScale)`.  The initialiser list
sets the three numbers; the pointer members start out null, which is what the
null tests of the destructor presuppose. -/
def RenderSystem.construct {T : Type} (width height bwScale : Nat) : RenderSystem T :=
  { width := width, height := height, bwScale := bwScale, title := "",
    window := none, renderer := none, frameTimer := none }

/-- The flag `IMG_INIT_PNG` of SDL_image. -/
def IMG_INIT_PNG : Nat := 2

/-- What the backend answers to the four acquisitions of `init`: the return
value of `SDL_Init`, the flags returned by `IMG_Init`, the window returned by
`SDL_CreateWindow` (null on failure) and the renderer returned by
`SDL_CreateRenderer` for the software or the accelerated flag. -/
structure InitBackend where
  SDL_Init : Int
  IMG_Init : Nat
  SDL_CreateWindow : Option Handle
  SDL_CreateRenderer : Bool → Option Handle

/-- `RenderSystem::init(title, sw)`: the returned flag, the members afterwards
and the calls made. -/
def RenderSystem.init {T : Type} (ops : FrameTimerOps T) (rs : RenderSystem T)
    (be : InitBackend) (title : String) (sw : Bool) :
    Bool × RenderSystem T × List Event :=
  -- Set title
  let rs := { rs with title := title }
  -- Attempt to initialize SDL
  let evs := [Event.SDL_Init be.SDL_Init]
  if be.SDL_Init < 0 then
    (false, rs, evs ++ [Event.printf Diag.sdlInitFailed])
  else
    -- Attempt to initialize IMG library
    let imgFlags := IMG_INIT_PNG
    let evs := evs ++ [Event.IMG_Init be.IMG_Init]
    if be.IMG_Init &&& imgFlags = 0 then
      (false, rs, evs ++ [Event.printf Diag.imgInitFailed])
    else
      -- Create window
      let rs := { rs with window := be.SDL_CreateWindow }
      let evs := evs ++ [Event.SDL_CreateWindow (toInt32 rs.width) (toInt32 rs.height) rs.window]
      match rs.window with
      | none => (false, rs, evs ++ [Event.printf Diag.windowFailed])
      | some window =>
        -- Create renderer for window
        let rs := { rs with renderer := be.SDL_CreateRenderer sw }
        let evs := evs ++ [Event.SDL_CreateRenderer window sw rs.renderer]
        match rs.renderer with
        | none => (false, rs, evs ++ [Event.printf Diag.rendererFailed])
        | some _ =>
          -- Create frame timer
          let rs := { rs with frameTimer := some (ops.create 100) }
          let evs := evs ++ [Event.newFrameTimer 100]
          -- Start the frame timer
          let rs := { rs with frameTimer := rs.frameTimer.map ops.start }
          let evs := evs ++ [Event.frameTimerStart]
          (true, rs, evs)

/-- `RenderSystem::~RenderSystem()`: the calls made, in program order. -/
def RenderSystem.destroy {T : Type} (rs : RenderSystem T) : List Event :=
  -- Destroy frame timer
  let evs := match rs.frameTimer with
    | some _ => [Event.deleteFrameTimer]
    | none => []
  -- Destroy window
  let evs := match rs.window with
    | some window => evs ++ [Event.SDL_DestroyWindow window]
    | none => evs
  -- Destroy renderer
  let evs := match rs.renderer with
    | some renderer => evs ++ [Event.SDL_DestroyRenderer renderer]
    | none => evs
  -- Quit SDL subsystems
  evs ++ [Event.IMG_Quit, Event.SDL_Quit]

/-! ## `RenderSystem::loadTexture` -/

/-- What the backend answers to the two calls of `loadTexture`: the surface
decoded by `IMG_Load` from a path and the texture `SDL_CreateTextureFromSurface`
makes of a surface for a renderer (null on failure). -/
structure TextureBackend where
  IMG_Load : String → Option Handle
  SDL_CreateTextureFromSurface : Option Handle → Handle → Option Handle

/-- `RenderSystem::loadTexture(path, renderer)`: the returned texture (`none`
is the null pointer) and the calls made. -/
def RenderSystem.loadTexture (be : TextureBackend) (path : String)
    (renderer : Option Handle) : Option Handle × List Event :=
  -- The final texture
  let newTexture : Option Handle := none
  -- Load image at specified path
  let loadedSurface := be.IMG_Load path
  let evs := [Event.IMG_Load path loadedSurface]
  match loadedSurface with
  | none => (newTexture, evs ++ [Event.printf Diag.imageLoadFailed])
  | some surface =>
    -- Create texture from surface pixels
    let newTexture := be.SDL_CreateTextureFromSurface renderer surface
    let evs := evs ++ [Event.SDL_CreateTextureFromSurface surface newTexture]
    let evs := if newTexture = none then evs ++ [Event.printf Diag.textureCreateFailed] else evs
    -- Get rid of old loaded surface
    let evs := evs ++ [Event.SDL_FreeSurface surface]
    (newTexture, evs)

/-! ## Vocabulary of the properties -/

/-- The four acquisitions of `init`. -/
inductive Stage where
  | video
  | image
  | window
  | renderer
deriving DecidableEq, Repr

/-- The acquisition a call attempts, if it is one. -/
def Event.stage : Event → Option Stage
  | Event.SDL_Init _ => some Stage.video
  | Event.IMG_Init _ => some Stage.image
  | Event.SDL_CreateWindow _ _ _ => some Stage.window
  | Event.SDL_CreateRenderer _ _ _ => some Stage.renderer
  | _ => none

/-- The acquisitions attempted by a call sequence, in order. -/
def attempted (evs : List Event) : List Stage := evs.filterMap Event.stage

/-- Whether the backend makes an acquisition fail. -/
def InitBackend.fails (be : InitBackend) (sw : Bool) : Stage → Bool
  | Stage.video => decide (be.SDL_Init < 0)
  | Stage.image => decide (be.IMG_Init &&& IMG_INIT_PNG = 0)
  | Stage.window => be.SDL_CreateWindow.isNone
  | Stage.renderer => (be.SDL_CreateRenderer sw).isNone

/-- A sequence of stages cut after its first failing stage. -/
def upToFirstFailure (fails : Stage → Bool) : List Stage → List Stage
  | [] => []
  | s :: ss => if fails s then [s] else s :: upToFirstFailure fails ss

/-- The calls of a sequence that create or start the frame timer. -/
def timerSetup : List Event → List Event
  | [] => []
  | Event.newFrameTimer n :: evs => Event.newFrameTimer n :: timerSetup evs
  | Event.frameTimerStart :: evs => Event.frameTimerStart :: timerSetup evs
  | _ :: evs => timerSetup evs

/-- The release calls of a sequence, in order. -/
def releases : List Event → List Event
  | [] => []
  | Event.deleteFrameTimer :: evs => Event.deleteFrameTimer :: releases evs
  | Event.SDL_DestroyWindow w :: evs => Event.SDL_DestroyWindow w :: releases evs
  | Event.SDL_DestroyRenderer r :: evs => Event.SDL_DestroyRenderer r :: releases evs
  | Event.IMG_Quit :: evs => Event.IMG_Quit :: releases evs
  | Event.SDL_Quit :: evs => Event.SDL_Quit :: releases evs
  | Event.SDL_FreeSurface s :: evs => Event.SDL_FreeSurface s :: releases evs
  | _ :: evs => releases evs

/-- The backend resources a process holds: the two subsystems, the live windows
and renderers, and the number of live frame timers. -/
structure Held where
  video : Bool
  image : Bool
  windows : List Handle
  renderers : List Handle
  timers : Nat
deriving DecidableEq, Repr

/-- Nothing is held. -/
def Held.nothing : Held :=
  { video := false, image := false, windows := [], renderers := [], timers := 0 }

/-- The effect of one call on the resources held. -/
def Held.step (h : Held) : Event → Held
  | Event.SDL_Init ret => if ret < 0 then h else { h with video := true }
  | Event.IMG_Init ret => if ret &&& IMG_INIT_PNG = 0 then h else { h with image := true }
  | Event.SDL_CreateWindow _ _ (some w) => { h with windows := w :: h.windows }
  | Event.SDL_CreateRenderer _ _ (some r) => { h with renderers := r :: h.renderers }
  | Event.newFrameTimer _ => { h with timers := h.timers + 1 }
  | Event.deleteFrameTimer => { h with timers := h.timers - 1 }
  | Event.SDL_DestroyWindow w => { h with windows := h.windows.erase w }
  | Event.SDL_DestroyRenderer r => { h with renderers := h.renderers.erase r }
  | Event.IMG_Quit => { h with image := false }
  | Event.SDL_Quit => { h with video := false }
  | _ => h

/-- The resources held after a call sequence that starts with nothing held. -/
def held (evs : List Event) : Held := evs.foldl Held.step Held.nothing

/-- The rectangle of the words "x, y, w, h each multiplied by bwScale": the
products as integers, without reduction to 32 bits. -/
def scaledRect (bwScale : Nat) (R : SDL_Rect) : SDL_Rect :=
  { x := R.x * (bwScale : Int), y := R.y * (bwScale : Int),
    w := R.w * (bwScale : Int), h := R.h * (bwScale : Int) }

/-- The point `(px, py)` lies in the rectangle. -/
def SDL_Rect.contains (r : SDL_Rect) (px py : Int) : Prop :=
  r.x ≤ px ∧ px < r.x + r.w ∧ r.y ≤ py ∧ py < r.y + r.h

/-- The surfaces released by a call sequence, in order. -/
def surfaceFrees : List Event → List Handle
  | [] => []
  | Event.SDL_FreeSurface s :: evs => s :: surfaceFrees evs
  | _ :: evs => surfaceFrees evs

/-- The number of FPS lines written by a call sequence. -/
def fpsLines (evs : List Event) : Nat := evs.count Event.coutFps

/-- The per-call sequences of consecutive calls of `render`, one scene, camera
and indeterminate local per call; `none` as soon as one call has no defined
result. -/
def renderAll {T : Type} (ops : FrameTimerOps T) :
    RenderSystem T → List (List SDL_Rect × SDL_Rect × SDL_Rect) →
    Option (RenderSystem T × List (List Event))
  | rs, [] => some (rs, [])
  | rs, (scene, cam, g) :: rest =>
    match rs.render ops scene cam g with
    | none => none
    | some (rs1, evs) =>
      match renderAll ops rs1 rest with
      | none => none
      | some (rs2, evss) => some (rs2, evs :: evss)

/-- The rectangle `render` draws for one platform, if any: the loop body
without its state. -/
def drawnRect (height bwScale : Nat) (cam p : SDL_Rect) : Option SDL_Rect :=
  let res := SDL_IntersectRect (blockToWorld bwScale p) cam p
  if res.1 = true then some (worldToSDL height bwScale res.2) else none

/-! ## Arithmetic of the conversions -/

theorem toInt32_of_isInt32 (v : Int) (h : isInt32 v) : toInt32 v = v := by
  unfold isInt32 at h
  unfold toInt32
  omega

theorem toInt32_toUInt32 (v : Int) : toInt32 (toUInt32 v) = toInt32 v := by
  unfold toInt32 toUInt32
  omega

theorem toUInt32_mul (a b : Int) : toUInt32 (toUInt32 a * b) = toUInt32 (a * b) := by
  unfold toUInt32
  rw [Int.mul_emod, Int.emod_emod, ← Int.mul_emod]

theorem scaled_field (a : Int) (bwScale : Nat) :
    toInt32 (toUInt32 (toUInt32 a * (bwScale : Int))) = toInt32 (a * (bwScale : Int)) := by
  rw [toUInt32_mul, toInt32_toUInt32]

theorem blockToWorld_eq (bwScale : Nat) (r : SDL_Rect) :
    blockToWorld bwScale r =
      { x := toInt32 (r.x * (bwScale : Int)), y := toInt32 (r.y * (bwScale : Int)),
        w := toInt32 (r.w * (bwScale : Int)), h := toInt32 (r.h * (bwScale : Int)) } := by
  simp [blockToWorld, scaled_field]

theorem worldToSDL_y (height bwScale : Nat) (r : SDL_Rect) :
    (worldToSDL height bwScale r).y = toInt32 ((height : Int) - r.y - (bwScale : Int)) := by
  simp only [worldToSDL, toInt32, toUInt32]
  omega

/-! ## The platform loop -/

theorem SDL_IntersectRect_fst (A B r1 r2 : SDL_Rect) :
    (SDL_IntersectRect A B r1).1 = (SDL_IntersectRect A B r2).1 := by
  unfold SDL_IntersectRect
  split <;> rfl

theorem SDL_IntersectRect_snd (A B r1 r2 : SDL_Rect)
    (h : (SDL_IntersectRect A B r1).1 = true) :
    (SDL_IntersectRect A B r1).2 = (SDL_IntersectRect A B r2).2 := by
  unfold SDL_IntersectRect at h ⊢
  split
  · rename_i hc
    simp [hc] at h
  · rfl

theorem renderPlatform_calls (height bwScale : Nat) (cam : SDL_Rect)
    (st : SDL_Rect × List Event) (p : SDL_Rect) :
    (renderPlatform height bwScale cam st p).2 =
      st.2 ++ (drawnRect height bwScale cam p).toList.map Event.SDL_RenderDrawRect := by
  unfold renderPlatform drawnRect
  by_cases h : (SDL_IntersectRect (blockToWorld bwScale p) cam st.1).1 = true
  · have h2 := SDL_IntersectRect_fst (blockToWorld bwScale p) cam st.1 p
    have h3 := SDL_IntersectRect_snd (blockToWorld bwScale p) cam st.1 p h
    simp [h, ← h2, ← h3]
  · have h2 := SDL_IntersectRect_fst (blockToWorld bwScale p) cam st.1 p
    simp [h, ← h2]

theorem platformLoop_calls (height bwScale : Nat) (cam : SDL_Rect) (scene : List SDL_Rect) :
    ∀ st : SDL_Rect × List Event,
      (scene.foldl (renderPlatform height bwScale cam) st).2 =
        st.2 ++ (scene.filterMap (drawnRect height bwScale cam)).map Event.SDL_RenderDrawRect := by
  induction scene with
  | nil => intro st; simp
  | cons p ps ih =>
    intro st
    rw [List.foldl_cons, ih, renderPlatform_calls]
    cases hd : drawnRect height bwScale cam p <;> simp [List.filterMap_cons, hd]

theorem drawCalls_append (a b : List Event) :
    drawCalls (a ++ b) = drawCalls a ++ drawCalls b := by
  induction a with
  | nil => rfl
  | cons e es ih => cases e <;> simp [drawCalls, ih]

theorem drawCalls_map (l : List SDL_Rect) :
    drawCalls (l.map Event.SDL_RenderDrawRect) = l := by
  induction l with
  | nil => rfl
  | cons r rs ih => simp [drawCalls, ih]

/-- The calls of one `render` on an initialised renderer, written out. -/
theorem render_eq {T : Type} (ops : FrameTimerOps T) (rs : RenderSystem T) (t : T)
    (scene : List SDL_Rect) (cam g : SDL_Rect) (ht : rs.frameTimer = some t) :
    rs.render ops scene cam g =
      some ({ rs with frameTimer := some (ops.tick t) },
        ([Event.SDL_SetRenderDrawColor 0 0 0 255, Event.SDL_RenderClear,
          Event.SDL_SetRenderDrawColor 125 193 240 255] ++
          (scene.filterMap (drawnRect rs.height rs.bwScale cam)).map Event.SDL_RenderDrawRect) ++
        [Event.SDL_RenderPresent, Event.frameTimerTick] ++
        (if ops.getFrameCount (ops.tick t) % 100 = 0 then [Event.coutFps] else [])) := by
  unfold RenderSystem.render
  simp only [ht, platformLoop_calls]
  split <;> simp

theorem renderDraws_eq {T : Type} (ops : FrameTimerOps T) (rs : RenderSystem T) (t : T)
    (scene : List SDL_Rect) (cam g : SDL_Rect) (ht : rs.frameTimer = some t) :
    renderDraws ops rs scene cam g = scene.filterMap (drawnRect rs.height rs.bwScale cam) := by
  unfold renderDraws
  rw [render_eq ops rs t scene cam g ht]
  simp only [drawCalls_append, drawCalls_map]
  split <;> simp [drawCalls]

theorem SDL_IntersectRect_contained (A B r : SDL_Rect)
    (hw : isInt32 A.w) (hh : isInt32 A.h)
    (hxw : isInt32 (A.x + A.w)) (hyh : isInt32 (A.y + A.h))
    (hBx : isInt32 (B.x + B.w)) (hBy : isInt32 (B.y + B.h))
    (hwpos : 0 < A.w) (hhpos : 0 < A.h)
    (hleft : B.x ≤ A.x) (hright : A.x + A.w ≤ B.x + B.w)
    (hbottom : B.y ≤ A.y) (htop : A.y + A.h ≤ B.y + B.h) :
    SDL_IntersectRect A B r = (true, A) := by
  have e1 := toInt32_of_isInt32 _ hxw
  have e2 := toInt32_of_isInt32 _ hyh
  have e3 := toInt32_of_isInt32 _ hBx
  have e4 := toInt32_of_isInt32 _ hBy
  have c1 : ¬ (B.x > A.x) := by omega
  have c2 : ¬ (B.y > A.y) := by omega
  have c3 : ¬ (B.x + B.w < A.x + A.w) := by omega
  have c4 : ¬ (B.y + B.h < A.y + A.h) := by omega
  have d1 : A.x + A.w - A.x = A.w := by omega
  have d2 : A.y + A.h - A.y = A.h := by omega
  have e5 := toInt32_of_isInt32 _ hw
  have e6 := toInt32_of_isInt32 _ hh
  have n1 : SDL_RectEmpty A = false := by
    simp only [SDL_RectEmpty, Bool.or_eq_false_iff, decide_eq_false_iff_not]
    omega
  have n2 : SDL_RectEmpty B = false := by
    simp only [SDL_RectEmpty, Bool.or_eq_false_iff, decide_eq_false_iff_not]
    omega
  unfold SDL_IntersectRect
  simp only [n1, n2, e1, e2, e3, e4, c1, c2, c3, c4, d1, d2, e5, e6, if_false, Bool.or_false,
    Bool.false_eq_true, Bool.not_false]

/-- When no sum or difference leaves the range of `int`, `SDL_IntersectRect`
answers true exactly when the two rectangles have a point in common. -/
theorem SDL_IntersectRect_true_iff_overlap (A B r : SDL_Rect)
    (hAx : isInt32 (A.x + A.w)) (hAy : isInt32 (A.y + A.h))
    (hBx : isInt32 (B.x + B.w)) (hBy : isInt32 (B.y + B.h))
    (hdx : isInt32 (min (A.x + A.w) (B.x + B.w) - max A.x B.x))
    (hdy : isInt32 (min (A.y + A.h) (B.y + B.h) - max A.y B.y)) :
    (SDL_IntersectRect A B r).1 = true ↔ ∃ px py, A.contains px py ∧ B.contains px py := by
  have e1 := toInt32_of_isInt32 _ hAx
  have e2 := toInt32_of_isInt32 _ hAy
  have e3 := toInt32_of_isInt32 _ hBx
  have e4 := toInt32_of_isInt32 _ hBy
  obtain ⟨mx, hmx⟩ : ∃ v, v = max A.x B.x := ⟨_, rfl⟩
  obtain ⟨nx, hnx⟩ : ∃ v, v = min (A.x + A.w) (B.x + B.w) := ⟨_, rfl⟩
  obtain ⟨my, hmy⟩ : ∃ v, v = max A.y B.y := ⟨_, rfl⟩
  obtain ⟨ny, hny⟩ : ∃ v, v = min (A.y + A.h) (B.y + B.h) := ⟨_, rfl⟩
  have fx : A.x ≤ mx ∧ B.x ≤ mx ∧ (mx = A.x ∨ mx = B.x) ∧ nx ≤ A.x + A.w ∧
      nx ≤ B.x + B.w ∧ (nx = A.x + A.w ∨ nx = B.x + B.w) := by omega
  have fy : A.y ≤ my ∧ B.y ≤ my ∧ (my = A.y ∨ my = B.y) ∧ ny ≤ A.y + A.h ∧
      ny ≤ B.y + B.h ∧ (ny = A.y + A.h ∨ ny = B.y + B.h) := by omega
  have m1 : (if B.x + B.w < A.x + A.w then B.x + B.w else A.x + A.w) -
      (if B.x > A.x then B.x else A.x) = nx - mx := by
    split <;> split <;> omega
  have m2 : (if B.y + B.h < A.y + A.h then B.y + B.h else A.y + A.h) -
      (if B.y > A.y then B.y else A.y) = ny - my := by
    split <;> split <;> omega
  rw [← hmx, ← hnx] at hdx
  rw [← hmy, ← hny] at hdy
  clear hmx hnx hmy hny
  unfold SDL_IntersectRect
  simp only [e1, e2, e3, e4, m1, m2, toInt32_of_isInt32 _ hdx, toInt32_of_isInt32 _ hdy]
  clear m1 m2 e1 e2 e3 e4
  unfold SDL_Rect.contains
  by_cases hc : (SDL_RectEmpty A || SDL_RectEmpty B) = true
  · rw [if_pos hc]
    simp only [SDL_RectEmpty, Bool.or_eq_true, decide_eq_true_eq] at hc
    simp only [Bool.false_eq_true, false_iff]
    rintro ⟨px, py, h1, h2⟩
    omega
  · rw [if_neg hc]
    simp only [SDL_RectEmpty, Bool.or_eq_true, decide_eq_true_eq, Bool.not_eq_true',
      Bool.or_eq_false_iff, decide_eq_false_iff_not, not_le, not_or] at hc ⊢
    constructor
    · intro h
      refine ⟨mx, my, ?_, ?_⟩ <;> omega
    · rintro ⟨px, py, h1, h2⟩
      omega
/-! ## Properties of `render`'s geometry -/

/-- C1, as stated, fails: the platform `(134217728,3,1,1)` scaled by 32 is the
rectangle `(4294967296,96,32,32)`, which has no point in common with the camera
view rectangle `(0,0,800,600)`, yet the 32-bit product of `x` wraps to 0 and
`render` draws `(0,472,32,32)` for it. -/
theorem offcamera_overflow_platform_drawn :
    (¬ ∃ px py, (scaledRect 32 ⟨134217728, 3, 1, 1⟩).contains px py ∧
        SDL_Rect.contains ⟨0, 0, 800, 600⟩ px py) ∧
      renderDraws FrameTimer.ops
          { width := 800, height := 600, bwScale := 32, title := "", window := some 1,
            renderer := some 2, frameTimer := some ⟨100, 0⟩ }
          [⟨134217728, 3, 1, 1⟩] ⟨0, 0, 800, 600⟩ ⟨0, 0, 0, 0⟩ = [⟨0, 472, 32, 32⟩] := by
  refine ⟨?_, by decide⟩
  rintro ⟨px, py, h1, h2⟩
  simp only [SDL_Rect.contains, scaledRect] at h1 h2
  omega

/-- C1, amended: when no product, sum or difference of the computation leaves
the range of `int`, a platform whose rectangle scaled by `bwScale` has no point
in common with the camera view rectangle contributes no outline-draw call:
`render` returns, and the rectangles it draws for a scene containing the
platform are those drawn for the platforms before it followed by those drawn
for the platforms after it. -/
theorem offcamera_platform_not_drawn {T : Type} (ops : FrameTimerOps T)
    (rs : RenderSystem T) (t : T) (pre post : List SDL_Rect) (R V g : SDL_Rect)
    (ht : rs.frameTimer = some t)
    (hx : isInt32 (R.x * rs.bwScale)) (hy : isInt32 (R.y * rs.bwScale))
    (hw : isInt32 (R.w * rs.bwScale)) (hh : isInt32 (R.h * rs.bwScale))
    (hxw : isInt32 (R.x * rs.bwScale + R.w * rs.bwScale))
    (hyh : isInt32 (R.y * rs.bwScale + R.h * rs.bwScale))
    (hVx : isInt32 (V.x + V.w)) (hVy : isInt32 (V.y + V.h))
    (hdx : isInt32 (min (R.x * rs.bwScale + R.w * rs.bwScale) (V.x + V.w) -
      max (R.x * rs.bwScale) V.x))
    (hdy : isInt32 (min (R.y * rs.bwScale + R.h * rs.bwScale) (V.y + V.h) -
      max (R.y * rs.bwScale) V.y))
    (hdisjoint : ¬ ∃ px py, (scaledRect rs.bwScale R).contains px py ∧ V.contains px py) :
    (rs.render ops (pre ++ R :: post) V g).isSome = true ∧
      renderDraws ops rs (pre ++ R :: post) V g =
        renderDraws ops rs pre V g ++ renderDraws ops rs post V g := by
  refine ⟨by rw [render_eq ops rs t _ V g ht]; rfl, ?_⟩
  have hA : blockToWorld rs.bwScale R = scaledRect rs.bwScale R := by
    rw [blockToWorld_eq, toInt32_of_isInt32 _ hx, toInt32_of_isInt32 _ hy,
      toInt32_of_isInt32 _ hw, toInt32_of_isInt32 _ hh]
    rfl
  have hiff := SDL_IntersectRect_true_iff_overlap (scaledRect rs.bwScale R) V R
    hxw hyh hVx hVy hdx hdy
  have hfalse : (SDL_IntersectRect (scaledRect rs.bwScale R) V R).1 = false := by
    cases hb : (SDL_IntersectRect (scaledRect rs.bwScale R) V R).1 with
    | false => rfl
    | true => exact absurd (hiff.mp hb) hdisjoint
  have hR : drawnRect rs.height rs.bwScale V R = none := by
    unfold drawnRect
    rw [hA]
    simp [hfalse]
  simp [renderDraws_eq ops rs t _ V g ht, List.filterMap_append, List.filterMap_cons, hR]

/-- C1, amended, at a scene of three platforms whose middle one lies right of
the camera. -/
theorem offcamera_platform_not_drawn_witness :
    (¬ ∃ px py, (scaledRect 32 ⟨40, 3, 1, 1⟩).contains px py ∧
        SDL_Rect.contains ⟨0, 0, 800, 600⟩ px py) ∧
      (RenderSystem.render FrameTimer.ops
          { width := 800, height := 600, bwScale := 32, title := "", window := some 1,
            renderer := some 2, frameTimer := some ⟨100, 0⟩ }
          ([⟨2, 3, 1, 1⟩] ++ ⟨40, 3, 1, 1⟩ :: [⟨5, 1, 3, 1⟩]) ⟨0, 0, 800, 600⟩
          ⟨0, 0, 0, 0⟩).isSome = true ∧
      renderDraws FrameTimer.ops
          { width := 800, height := 600, bwScale := 32, title := "", window := some 1,
            renderer := some 2, frameTimer := some ⟨100, 0⟩ }
          ([⟨2, 3, 1, 1⟩] ++ ⟨40, 3, 1, 1⟩ :: [⟨5, 1, 3, 1⟩]) ⟨0, 0, 800, 600⟩ ⟨0, 0, 0, 0⟩ =
        renderDraws FrameTimer.ops
          { width := 800, height := 600, bwScale := 32, title := "", window := some 1,
            renderer := some 2, frameTimer := some ⟨100, 0⟩ }
          [⟨2, 3, 1, 1⟩] ⟨0, 0, 800, 600⟩ ⟨0, 0, 0, 0⟩ ++
        renderDraws FrameTimer.ops
          { width := 800, height := 600, bwScale := 32, title := "", window := some 1,
            renderer := some 2, frameTimer := some ⟨100, 0⟩ }
          [⟨5, 1, 3, 1⟩] ⟨0, 0, 800, 600⟩ ⟨0, 0, 0, 0⟩ :=
  have hd : ¬ ∃ px py, (scaledRect 32 ⟨40, 3, 1, 1⟩).contains px py ∧
      SDL_Rect.contains ⟨0, 0, 800, 600⟩ px py := by
    rintro ⟨px, py, h1, h2⟩
    simp only [SDL_Rect.contains, scaledRect] at h1 h2
    omega
  ⟨hd,
    offcamera_platform_not_drawn FrameTimer.ops
      { width := 800, height := 600, bwScale := 32, title := "", window := some 1,
        renderer := some 2, frameTimer := some ⟨100, 0⟩ }
      ⟨100, 0⟩ [⟨2, 3, 1, 1⟩] [⟨5, 1, 3, 1⟩] ⟨40, 3, 1, 1⟩ ⟨0, 0, 800, 600⟩ ⟨0, 0, 0, 0⟩
      rfl (by decide) (by decide) (by decide) (by decide) (by decide) (by decide)
      (by decide) (by decide) (by decide) (by decide) hd⟩

/-- C2: for a platform whose scaled rectangle is non-empty and lies inside the
camera view rectangle, with every intermediate value representable as `int`,
`render` returns and draws for it the rectangle with `x = R.x*bwScale`,
`y = height - R.y*bwScale - bwScale`, `w = R.w*bwScale`, `h = R.h*bwScale`,
between the rectangles of the platforms before and after it. -/
theorem contained_platform_drawn_flipped {T : Type} (ops : FrameTimerOps T)
    (rs : RenderSystem T) (t : T) (pre post : List SDL_Rect) (R V g : SDL_Rect)
    (ht : rs.frameTimer = some t)
    (hx : isInt32 (R.x * rs.bwScale)) (hy : isInt32 (R.y * rs.bwScale))
    (hw : isInt32 (R.w * rs.bwScale)) (hh : isInt32 (R.h * rs.bwScale))
    (hxw : isInt32 (R.x * rs.bwScale + R.w * rs.bwScale))
    (hyh : isInt32 (R.y * rs.bwScale + R.h * rs.bwScale))
    (hVx : isInt32 (V.x + V.w)) (hVy : isInt32 (V.y + V.h))
    (hflip : isInt32 ((rs.height : Int) - R.y * rs.bwScale - rs.bwScale))
    (hwpos : 0 < R.w * rs.bwScale) (hhpos : 0 < R.h * rs.bwScale)
    (hleft : V.x ≤ R.x * rs.bwScale)
    (hright : R.x * rs.bwScale + R.w * rs.bwScale ≤ V.x + V.w)
    (hbottom : V.y ≤ R.y * rs.bwScale)
    (htop : R.y * rs.bwScale + R.h * rs.bwScale ≤ V.y + V.h) :
    (rs.render ops (pre ++ R :: post) V g).isSome = true ∧
      renderDraws ops rs (pre ++ R :: post) V g =
        renderDraws ops rs pre V g ++
          [{ x := R.x * rs.bwScale, y := (rs.height : Int) - R.y * rs.bwScale - rs.bwScale,
             w := R.w * rs.bwScale, h := R.h * rs.bwScale }] ++
          renderDraws ops rs post V g := by
  refine ⟨by rw [render_eq ops rs t _ V g ht]; rfl, ?_⟩
  have hA : blockToWorld rs.bwScale R =
      { x := R.x * rs.bwScale, y := R.y * rs.bwScale,
        w := R.w * rs.bwScale, h := R.h * rs.bwScale } := by
    rw [blockToWorld_eq, toInt32_of_isInt32 _ hx, toInt32_of_isInt32 _ hy,
      toInt32_of_isInt32 _ hw, toInt32_of_isInt32 _ hh]
  have hI := SDL_IntersectRect_contained
    { x := R.x * rs.bwScale, y := R.y * rs.bwScale, w := R.w * rs.bwScale,
      h := R.h * rs.bwScale } V R hw hh hxw hyh hVx hVy hwpos hhpos hleft hright hbottom htop
  have hR : drawnRect rs.height rs.bwScale V R =
      some { x := R.x * rs.bwScale, y := (rs.height : Int) - R.y * rs.bwScale - rs.bwScale,
             w := R.w * rs.bwScale, h := R.h * rs.bwScale } := by
    unfold drawnRect
    rw [hA, hI]
    have hyv := worldToSDL_y rs.height rs.bwScale
      { x := R.x * rs.bwScale, y := R.y * rs.bwScale, w := R.w * rs.bwScale,
        h := R.h * rs.bwScale }
    rw [toInt32_of_isInt32 _ hflip] at hyv
    simp only [if_true, Option.some.injEq]
    rw [← hyv]
    rfl
  simp [renderDraws_eq ops rs t _ V g ht, List.filterMap_append, List.filterMap_cons, hR]

/-- C2 at the platform `(2,3,4,2)` behind a ground platform, camera `(0,0,800,600)`. -/
theorem contained_platform_drawn_flipped_witness :
    (RenderSystem.render FrameTimer.ops
        { width := 800, height := 600, bwScale := 32, title := "", window := some 1,
          renderer := some 2, frameTimer := some ⟨100, 0⟩ }
        ([⟨0, 0, 25, 1⟩] ++ ⟨2, 3, 4, 2⟩ :: []) ⟨0, 0, 800, 600⟩ ⟨0, 0, 0, 0⟩).isSome = true ∧
      renderDraws FrameTimer.ops
          { width := 800, height := 600, bwScale := 32, title := "", window := some 1,
            renderer := some 2, frameTimer := some ⟨100, 0⟩ }
          ([⟨0, 0, 25, 1⟩] ++ ⟨2, 3, 4, 2⟩ :: []) ⟨0, 0, 800, 600⟩ ⟨0, 0, 0, 0⟩ =
        renderDraws FrameTimer.ops
            { width := 800, height := 600, bwScale := 32, title := "", window := some 1,
              renderer := some 2, frameTimer := some ⟨100, 0⟩ }
            [⟨0, 0, 25, 1⟩] ⟨0, 0, 800, 600⟩ ⟨0, 0, 0, 0⟩ ++
          [{ x := 2 * (32 : Nat), y := ((600 : Nat) : Int) - 3 * (32 : Nat) - (32 : Nat),
             w := 4 * (32 : Nat), h := 2 * (32 : Nat) }] ++
          renderDraws FrameTimer.ops
            { width := 800, height := 600, bwScale := 32, title := "", window := some 1,
              renderer := some 2, frameTimer := some ⟨100, 0⟩ }
            [] ⟨0, 0, 800, 600⟩ ⟨0, 0, 0, 0⟩ :=
  contained_platform_drawn_flipped FrameTimer.ops
    { width := 800, height := 600, bwScale := 32, title := "", window := some 1,
      renderer := some 2, frameTimer := some ⟨100, 0⟩ }
    ⟨100, 0⟩ [⟨0, 0, 25, 1⟩] [] ⟨2, 3, 4, 2⟩ ⟨0, 0, 800, 600⟩ ⟨0, 0, 0, 0⟩ rfl
    (by decide) (by decide) (by decide) (by decide) (by decide) (by decide) (by decide)
    (by decide) (by decide) (by decide) (by decide) (by decide) (by decide) (by decide)
    (by decide)

/-- C3: with `bwScale = 32`, display height 600, camera view rectangle
`(0,0,800,600)` and a scene holding the single platform `(2,3,1,1)`, `render`
returns and issues exactly one outline-draw call, for the rectangle
`(64,472,32,32)`; this holds for every display width, window, renderer, title,
frame timer and initial content of the local `intersectRect`. -/
theorem single_platform_scene_draws_one_rect {T : Type} (ops : FrameTimerOps T)
    (width : Nat) (title : String) (window renderer : Option Handle) (t : T) (g : SDL_Rect) :
    (RenderSystem.render ops
        { width := width, height := 600, bwScale := 32, title := title, window := window,
          renderer := renderer, frameTimer := some t }
        [⟨2, 3, 1, 1⟩] ⟨0, 0, 800, 600⟩ g).isSome = true ∧
      renderDraws ops
        { width := width, height := 600, bwScale := 32, title := title, window := window,
          renderer := renderer, frameTimer := some t }
        [⟨2, 3, 1, 1⟩] ⟨0, 0, 800, 600⟩ g = [⟨64, 472, 32, 32⟩] := by
  refine ⟨by rw [render_eq ops _ t _ _ g rfl]; rfl, ?_⟩
  rw [renderDraws_eq ops _ t _ _ g rfl]
  show List.filterMap (drawnRect 600 32 ⟨0, 0, 800, 600⟩) [⟨2, 3, 1, 1⟩] = [⟨64, 472, 32, 32⟩]
  decide

/-- C4: the vertical flip `worldToSDL` is an involution under 32-bit
wrap-around arithmetic: for every height, every `bwScale` and every rectangle
whose `y` is an `int` value, applying it twice gives the rectangle back. -/
theorem worldToSDL_involutive (height bwScale : Nat) (r : SDL_Rect) (hy : isInt32 r.y) :
    worldToSDL height bwScale (worldToSDL height bwScale r) = r := by
  unfold isInt32 at hy
  have h1 : (worldToSDL height bwScale (worldToSDL height bwScale r)).y = r.y := by
    rw [worldToSDL_y, worldToSDL_y]
    unfold toInt32
    omega
  cases r with
  | mk x y w h =>
    simp only [worldToSDL] at h1 ⊢
    simp only [SDL_Rect.mk.injEq, true_and, and_true]
    exact h1

/-- C4 at a rectangle whose `y` is the least `int`, where both flips wrap around. -/
theorem worldToSDL_involutive_witness :
    isInt32 (-2147483648) ∧
      worldToSDL 600 32 (worldToSDL 600 32 ⟨64, -2147483648, 32, 96⟩) =
        ⟨64, -2147483648, 32, 96⟩ :=
  ⟨by decide, worldToSDL_involutive 600 32 ⟨64, -2147483648, 32, 96⟩ (by decide)⟩

/-- C10: when `render` draws a platform, `r` being the non-empty intersection
handed to `worldToSDL` and the flipped `y` being representable as `int`, the
drawn rectangle keeps `x`, `w`, `h` of `r`; its bottom edge is the mirror image
of the bottom edge of `r` (`y + r.h = height - r.y`) if and only if
`r.h = bwScale`; and in every case it lies `r.h - bwScale` pixels from the
mirror position `height - r.y - r.h`. -/
theorem flip_mirrors_iff_one_block_tall {T : Type} (ops : FrameTimerOps T)
    (rs : RenderSystem T) (t : T) (R V prev r g : SDL_Rect)
    (ht : rs.frameTimer = some t)
    (hit : SDL_IntersectRect (blockToWorld rs.bwScale R) V prev = (true, r))
    (hflip : isInt32 ((rs.height : Int) - r.y - rs.bwScale)) :
    ∃ d : SDL_Rect, renderDraws ops rs [R] V g = [d] ∧
      d.x = r.x ∧ d.w = r.w ∧ d.h = r.h ∧
      (d.y + r.h = (rs.height : Int) - r.y ↔ r.h = rs.bwScale) ∧
      d.y - ((rs.height : Int) - r.y - r.h) = r.h - rs.bwScale := by
  have h1 : (SDL_IntersectRect (blockToWorld rs.bwScale R) V R).1 = true := by
    rw [SDL_IntersectRect_fst _ _ R prev, hit]
  have h2 : (SDL_IntersectRect (blockToWorld rs.bwScale R) V R).2 = r := by
    rw [← SDL_IntersectRect_snd _ _ prev R (by rw [hit]), hit]
  have hR : drawnRect rs.height rs.bwScale V R = some (worldToSDL rs.height rs.bwScale r) := by
    unfold drawnRect
    simp [h1, h2]
  have hyv := worldToSDL_y rs.height rs.bwScale r
  rw [toInt32_of_isInt32 _ hflip] at hyv
  refine ⟨worldToSDL rs.height rs.bwScale r, ?_, rfl, rfl, rfl, ?_, ?_⟩
  · simp [renderDraws_eq ops rs t _ V g ht, List.filterMap_cons, hR]
  · rw [hyv]
    constructor <;> intro h <;> omega
  · rw [hyv]
    omega

/-- C10 at a platform two blocks tall, drawn 32 pixels below the mirror position. -/
theorem flip_mirrors_iff_one_block_tall_witness :
    SDL_IntersectRect (blockToWorld 32 ⟨2, 3, 1, 2⟩) ⟨0, 0, 800, 600⟩ ⟨0, 0, 0, 0⟩ =
        (true, ⟨64, 96, 32, 64⟩) ∧
      ∃ d : SDL_Rect,
        renderDraws FrameTimer.ops
            { width := 800, height := 600, bwScale := 32, title := "", window := some 1,
              renderer := some 2, frameTimer := some ⟨100, 0⟩ }
            [⟨2, 3, 1, 2⟩] ⟨0, 0, 800, 600⟩ ⟨0, 0, 0, 0⟩ = [d] ∧
          d.x = 64 ∧ d.w = 32 ∧ d.h = 64 ∧
          (d.y + 64 = ((600 : Nat) : Int) - 96 ↔ (64 : Int) = (32 : Nat)) ∧
          d.y - (((600 : Nat) : Int) - 96 - 64) = 64 - (32 : Nat) :=
  ⟨by decide,
    flip_mirrors_iff_one_block_tall FrameTimer.ops
      { width := 800, height := 600, bwScale := 32, title := "", window := some 1,
        renderer := some 2, frameTimer := some ⟨100, 0⟩ }
      ⟨100, 0⟩ ⟨2, 3, 1, 2⟩ ⟨0, 0, 800, 600⟩ ⟨0, 0, 0, 0⟩ ⟨64, 96, 32, 64⟩ ⟨0, 0, 0, 0⟩ rfl
      (by decide) (by decide)⟩

/-! ## Properties of `init`, the destructor and `loadTexture` -/

theorem exists_fails_iff (be : InitBackend) (sw : Bool) :
    (∃ s, be.fails sw s = true) ↔
      be.fails sw Stage.video = true ∨ be.fails sw Stage.image = true ∨
        be.fails sw Stage.window = true ∨ be.fails sw Stage.renderer = true := by
  constructor
  · rintro ⟨s, hs⟩
    cases s
    · exact Or.inl hs
    · exact Or.inr (Or.inl hs)
    · exact Or.inr (Or.inr (Or.inl hs))
    · exact Or.inr (Or.inr (Or.inr hs))
  · rintro (h | h | h | h) <;> exact ⟨_, h⟩

theorem forall_fails_iff (be : InitBackend) (sw : Bool) :
    (∀ s, be.fails sw s = false) ↔
      be.fails sw Stage.video = false ∧ be.fails sw Stage.image = false ∧
        be.fails sw Stage.window = false ∧ be.fails sw Stage.renderer = false := by
  constructor
  · intro h
    exact ⟨h _, h _, h _, h _⟩
  · rintro ⟨h1, h2, h3, h4⟩ s
    cases s <;> assumption

/-- C5: `init` returns false exactly when one of the four acquisitions fails and
true exactly when none does; the acquisitions attempted are video subsystem,
image subsystem, window, renderer, in this order, cut after the first failing
one; the frame timer is created with window size 100 and started exactly when
`init` returns true (otherwise the `frameTimer` member is left as it was). -/
theorem init_result_and_order {T : Type} (ops : FrameTimerOps T) (rs : RenderSystem T)
    (be : InitBackend) (title : String) (sw : Bool) :
    ((rs.init ops be title sw).1 = false ↔ ∃ s, be.fails sw s = true) ∧
      ((rs.init ops be title sw).1 = true ↔ ∀ s, be.fails sw s = false) ∧
      attempted (rs.init ops be title sw).2.2 =
        upToFirstFailure (be.fails sw)
          [Stage.video, Stage.image, Stage.window, Stage.renderer] ∧
      timerSetup (rs.init ops be title sw).2.2 =
        (if (rs.init ops be title sw).1 = true
          then [Event.newFrameTimer 100, Event.frameTimerStart] else []) ∧
      (rs.init ops be title sw).2.1.frameTimer =
        (if (rs.init ops be title sw).1 = true
          then some (ops.start (ops.create 100)) else rs.frameTimer) := by
  rw [exists_fails_iff, forall_fails_iff]
  unfold RenderSystem.init
  by_cases h1 : be.SDL_Init < 0
  · simp [h1, InitBackend.fails, attempted, Event.stage, upToFirstFailure, timerSetup]
  · by_cases h2 : be.IMG_Init &&& IMG_INIT_PNG = 0
    · simp [h1, h2, InitBackend.fails, attempted, Event.stage, upToFirstFailure, timerSetup]
    · cases h3 : be.SDL_CreateWindow with
      | none =>
        simp [h1, h2, h3, InitBackend.fails, attempted, Event.stage, upToFirstFailure,
          timerSetup]
      | some w =>
        cases h4 : be.SDL_CreateRenderer sw with
        | none =>
          simp [h1, h2, h3, h4, InitBackend.fails, attempted, Event.stage, upToFirstFailure,
            timerSetup]
        | some r =>
          simp [h1, h2, h3, h4, InitBackend.fails, attempted, Event.stage, upToFirstFailure,
            timerSetup]

/-- C6, as stated, fails: on a backend where the video subsystem, the image
subsystem and the window succeed and the renderer does not, `init` returns
false while both subsystems and the window are still held, and it has made no
release call. -/
theorem init_failure_keeps_resources :
    (RenderSystem.init FrameTimer.ops (RenderSystem.construct 800 600 32)
        ⟨0, 2, some 1, fun _ => none⟩ "platformer" false).1 = false ∧
      held (RenderSystem.init FrameTimer.ops (RenderSystem.construct 800 600 32)
        ⟨0, 2, some 1, fun _ => none⟩ "platformer" false).2.2 =
        { video := true, image := true, windows := [1], renderers := [], timers := 0 } ∧
      held (RenderSystem.init FrameTimer.ops (RenderSystem.construct 800 600 32)
        ⟨0, 2, some 1, fun _ => none⟩ "platformer" false).2.2 ≠ Held.nothing ∧
      releases (RenderSystem.init FrameTimer.ops (RenderSystem.construct 800 600 32)
        ⟨0, 2, some 1, fun _ => none⟩ "platformer" false).2.2 = [] := by
  decide

/-- C6, amended: when `init` returns false on a `RenderSystem` whose window,
renderer and frame timer pointers were null, `init` has made no release call,
so what it acquired before the failure point is still held when it returns
(the video subsystem unless `SDL_Init` failed, the image subsystem unless one
of the first two failed, the window if it was created); the destructor then
releases all of it: after `init` followed by the destructor nothing is held. -/
theorem init_failure_released_by_destructor {T : Type} (ops : FrameTimerOps T)
    (rs : RenderSystem T) (be : InitBackend) (title : String) (sw : Bool)
    (hw : rs.window = none) (hr : rs.renderer = none) (hf : rs.frameTimer = none)
    (hfail : (rs.init ops be title sw).1 = false) :
    releases (rs.init ops be title sw).2.2 = [] ∧
      held (rs.init ops be title sw).2.2 =
        { video := !be.fails sw Stage.video
          image := !be.fails sw Stage.video && !be.fails sw Stage.image
          windows :=
            if be.fails sw Stage.video = false ∧ be.fails sw Stage.image = false
              then be.SDL_CreateWindow.toList else []
          renderers := []
          timers := 0 } ∧
      held ((rs.init ops be title sw).2.2 ++ (rs.init ops be title sw).2.1.destroy) =
        Held.nothing := by
  unfold RenderSystem.init at hfail ⊢
  by_cases h1 : be.SDL_Init < 0
  · simp [h1, hw, hr, hf, InitBackend.fails, releases, held, Held.step, Held.nothing,
      RenderSystem.destroy]
  · by_cases h2 : be.IMG_Init &&& IMG_INIT_PNG = 0
    · simp [h1, h2, hw, hr, hf, InitBackend.fails, releases, held, Held.step, Held.nothing,
        RenderSystem.destroy]
    · cases h3 : be.SDL_CreateWindow with
      | none =>
        simp [h1, h2, h3, hw, hr, hf, InitBackend.fails, releases, held, Held.step,
          Held.nothing, RenderSystem.destroy]
      | some w =>
        cases h4 : be.SDL_CreateRenderer sw with
        | none =>
          simp [h1, h2, h3, h4, hw, hr, hf, InitBackend.fails, releases, held, Held.step,
            Held.nothing, RenderSystem.destroy]
        | some r =>
          simp [h1, h2, h3, h4] at hfail

/-- C6, amended, at the backend whose renderer creation fails. -/
theorem init_failure_released_by_destructor_witness :
    (RenderSystem.init FrameTimer.ops (RenderSystem.construct 800 600 32)
        ⟨0, 2, some 1, fun _ => none⟩ "platformer" false).1 = false ∧
      held ((RenderSystem.init FrameTimer.ops (RenderSystem.construct 800 600 32)
          ⟨0, 2, some 1, fun _ => none⟩ "platformer" false).2.2 ++
        (RenderSystem.init FrameTimer.ops (RenderSystem.construct 800 600 32)
          ⟨0, 2, some 1, fun _ => none⟩ "platformer" false).2.1.destroy) = Held.nothing :=
  ⟨by decide,
    (init_failure_released_by_destructor FrameTimer.ops (RenderSystem.construct 800 600 32)
      ⟨0, 2, some 1, fun _ => none⟩ "platformer" false rfl rfl rfl (by decide)).2.2⟩

/-- C7, evaluated on the code: on a fully initialised renderer the destructor
deletes the frame timer, then destroys the window, then the renderer, then
shuts down the image subsystem and the windowing subsystem, so the window is
destroyed before the drawing surface; a null frame timer, window or renderer
is skipped, and the two shutdown calls are always made. -/
theorem destructor_call_order {T : Type} (width height bwScale : Nat) (title : String)
    (t : T) (w r : Handle) :
    RenderSystem.destroy
        { width := width, height := height, bwScale := bwScale, title := title,
          window := some w, renderer := some r, frameTimer := some t } =
        [Event.deleteFrameTimer, Event.SDL_DestroyWindow w, Event.SDL_DestroyRenderer r,
          Event.IMG_Quit, Event.SDL_Quit] ∧
      RenderSystem.destroy
        { width := width, height := height, bwScale := bwScale, title := title,
          window := some w, renderer := some r, frameTimer := some t } ≠
        [Event.deleteFrameTimer, Event.SDL_DestroyRenderer r, Event.SDL_DestroyWindow w,
          Event.IMG_Quit, Event.SDL_Quit] ∧
      RenderSystem.destroy
        { width := width, height := height, bwScale := bwScale, title := title,
          window := none, renderer := none, frameTimer := (none : Option T) } =
        [Event.IMG_Quit, Event.SDL_Quit] := by
  refine ⟨rfl, ?_, rfl⟩
  simp [RenderSystem.destroy]

/-- C8: `loadTexture` is a total function; it returns a null handle exactly
when the image cannot be decoded or the decoded surface cannot be uploaded;
when decoding succeeds it returns what the upload produced, and it releases the
decoded surface exactly once, as its last call, whether the upload succeeded or
not; when decoding fails it releases no surface. -/
theorem loadTexture_result_and_release (be : TextureBackend) (path : String)
    (renderer : Option Handle) :
    ((RenderSystem.loadTexture be path renderer).1 = none ↔
        (be.IMG_Load path = none ∨
          ∃ s, be.IMG_Load path = some s ∧ be.SDL_CreateTextureFromSurface renderer s = none)) ∧
      (match be.IMG_Load path with
        | none => surfaceFrees (RenderSystem.loadTexture be path renderer).2 = []
        | some s =>
          (RenderSystem.loadTexture be path renderer).1 =
              be.SDL_CreateTextureFromSurface renderer s ∧
            surfaceFrees (RenderSystem.loadTexture be path renderer).2 = [s] ∧
            (RenderSystem.loadTexture be path renderer).2.getLast? =
              some (Event.SDL_FreeSurface s)) := by
  unfold RenderSystem.loadTexture
  cases h1 : be.IMG_Load path with
  | none => simp [surfaceFrees]
  | some s =>
    cases h2 : be.SDL_CreateTextureFromSurface renderer s with
    | none => simp [surfaceFrees, h2]
    | some tex => simp [surfaceFrees, h2]

/-! ## The frame timer in `render` -/

theorem init_frameTimer_started {T : Type} (ops : FrameTimerOps T) (rs : RenderSystem T)
    (be : InitBackend) (title : String) (sw : Bool)
    (h : (rs.init ops be title sw).1 = true) :
    (rs.init ops be title sw).2.1.frameTimer = some (ops.start (ops.create 100)) := by
  unfold RenderSystem.init at h ⊢
  by_cases h1 : be.SDL_Init < 0
  · simp [h1] at h
  · by_cases h2 : be.IMG_Init &&& IMG_INIT_PNG = 0
    · simp [h1, h2] at h
    · cases h3 : be.SDL_CreateWindow with
      | none => simp [h1, h2, h3] at h
      | some w =>
        cases h4 : be.SDL_CreateRenderer sw with
        | none => simp [h1, h2, h3, h4] at h
        | some r => simp [h1, h2, h3, h4]

theorem fpsLines_drawRects (l : List SDL_Rect) :
    fpsLines (l.map Event.SDL_RenderDrawRect) = 0 := by
  induction l with
  | nil => rfl
  | cons r rs ih =>
    unfold fpsLines at ih ⊢
    simp [List.count_cons, ih]

theorem fpsLines_render {T : Type} (ops : FrameTimerOps T) (rs : RenderSystem T) (t : T)
    (scene : List SDL_Rect) (cam g : SDL_Rect) (ht : rs.frameTimer = some t) :
    ∃ rs1 evs, rs.render ops scene cam g = some (rs1, evs) ∧
      rs1.frameTimer = some (ops.tick t) ∧
      fpsLines evs = if ops.getFrameCount (ops.tick t) % 100 = 0 then 1 else 0 := by
  refine ⟨_, _, render_eq ops rs t scene cam g ht, rfl, ?_⟩
  have h := fpsLines_drawRects (scene.filterMap (drawnRect rs.height rs.bwScale cam))
  unfold fpsLines at h ⊢
  by_cases hc : ops.getFrameCount (ops.tick t) % 100 = 0
  · simp [hc, List.count_append, List.count_cons, h]
  · simp [hc, List.count_append, List.count_cons, h]

theorem renderAll_fpsLines {T : Type} (ops : FrameTimerOps T)
    (htick : ∀ t, ops.getFrameCount (ops.tick t) = ops.getFrameCount t + 1) :
    ∀ (calls : List (List SDL_Rect × SDL_Rect × SDL_Rect)) (rs : RenderSystem T) (t : T)
      (c : Nat), rs.frameTimer = some t → ops.getFrameCount t = c →
      ∃ rsN evss, renderAll ops rs calls = some (rsN, evss) ∧
        evss.map fpsLines =
          (List.range calls.length).map (fun k => if (c + k + 1) % 100 = 0 then 1 else 0) := by
  intro calls
  induction calls with
  | nil =>
    intro rs t c _ _
    exact ⟨rs, [], rfl, rfl⟩
  | cons call rest ih =>
    intro rs t c ht hc
    obtain ⟨scene, cam, g⟩ := call
    obtain ⟨rs1, evs, hrender, ht1, hfps⟩ := fpsLines_render ops rs t scene cam g ht
    have hc1 : ops.getFrameCount (ops.tick t) = c + 1 := by rw [htick, hc]
    obtain ⟨rsN, evss, hall, hmap⟩ := ih rs1 (ops.tick t) (c + 1) ht1 hc1
    refine ⟨rsN, evs :: evss, ?_, ?_⟩
    · simp [renderAll, hrender, hall]
    · rw [List.map_cons, hfps, hmap, hc1, List.length_cons, List.range_succ_eq_map,
        List.map_cons, List.map_map]
      congr 1
      apply List.map_congr_left
      intro k _
      simp only [Function.comp, Nat.succ_eq_add_one]
      have e : c + 1 + k + 1 = c + (k + 1) + 1 := by omega
      rw [e]

theorem sum_every_hundredth (n : Nat) :
    ((List.range n).map (fun k => if (k + 1) % 100 = 0 then 1 else 0)).sum = n / 100 := by
  induction n with
  | zero => rfl
  | succ n ih =>
    rw [List.range_succ, List.map_append, List.sum_append, ih]
    simp only [List.map_cons, List.map_nil, List.sum_cons, List.sum_nil]
    split <;> omega

/-- C9: (1) every call of `render` on an initialised renderer returns, advances
the frame timer by exactly one tick, makes that tick right after the frame is
presented, and writes an FPS line, as its last call, if and only if the frame
count after the tick is a multiple of 100; nothing before the presentation
ticks the timer or writes an FPS line.  (2) If `getFrameCount` is zero after
`start` and grows by one with each `tick`, then after a successful `init` any
`N` consecutive calls of `render` all return, call number `k` writes one FPS
line when `k` is a multiple of 100 and none otherwise, and together they write
`N / 100` FPS lines. -/
theorem render_ticks_and_reports_fps {T : Type} (ops : FrameTimerOps T) :
    (∀ (rs : RenderSystem T) (t : T) (scene : List SDL_Rect) (cam g : SDL_Rect),
      rs.frameTimer = some t →
      ∃ rs1 before, rs.render ops scene cam g =
          some (rs1, before ++ [Event.SDL_RenderPresent, Event.frameTimerTick] ++
            (if ops.getFrameCount (ops.tick t) % 100 = 0 then [Event.coutFps] else [])) ∧
        rs1.frameTimer = some (ops.tick t) ∧
        Event.SDL_RenderPresent ∉ before ∧ Event.frameTimerTick ∉ before ∧
        Event.coutFps ∉ before) ∧
    ((∀ t, ops.getFrameCount (ops.start t) = 0) →
      (∀ t, ops.getFrameCount (ops.tick t) = ops.getFrameCount t + 1) →
      ∀ (rs : RenderSystem T) (be : InitBackend) (title : String) (sw : Bool)
        (calls : List (List SDL_Rect × SDL_Rect × SDL_Rect)),
        (rs.init ops be title sw).1 = true →
        ∃ rsN evss, renderAll ops (rs.init ops be title sw).2.1 calls = some (rsN, evss) ∧
          evss.length = calls.length ∧
          evss.map fpsLines =
            (List.range calls.length).map (fun k => if (k + 1) % 100 = 0 then 1 else 0) ∧
          (evss.map fpsLines).sum = calls.length / 100) := by
  constructor
  · intro rs t scene cam g ht
    refine ⟨_, _, render_eq ops rs t scene cam g ht, rfl, ?_, ?_, ?_⟩ <;> simp
  · intro hstart htick rs be title sw calls hinit
    have hft := init_frameTimer_started ops rs be title sw hinit
    obtain ⟨rsN, evss, hall, hmap⟩ :=
      renderAll_fpsLines ops htick calls _ _ 0 hft (hstart _)
    simp only [Nat.zero_add] at hmap
    refine ⟨rsN, evss, hall, ?_, hmap, ?_⟩
    · have := congrArg List.length hmap
      simpa using this
    · rw [hmap, sum_every_hundredth]

/-- C9 for the frame timer of section 4.1 and 250 consecutive frames. -/
theorem render_ticks_and_reports_fps_witness :
    (∀ t, FrameTimer.ops.getFrameCount (FrameTimer.ops.start t) = 0) ∧
      (∀ t, FrameTimer.ops.getFrameCount (FrameTimer.ops.tick t) =
        FrameTimer.ops.getFrameCount t + 1) ∧
      (RenderSystem.init FrameTimer.ops (RenderSystem.construct 800 600 32)
        ⟨0, 2, some 1, fun _ => some 2⟩ "platformer" false).1 = true ∧
      ∃ rsN evss,
        renderAll FrameTimer.ops
            (RenderSystem.init FrameTimer.ops (RenderSystem.construct 800 600 32)
              ⟨0, 2, some 1, fun _ => some 2⟩ "platformer" false).2.1
            (List.replicate 250 ([⟨2, 3, 1, 1⟩], ⟨0, 0, 800, 600⟩, ⟨0, 0, 0, 0⟩)) =
          some (rsN, evss) ∧
        evss.length =
          (List.replicate 250
            (([⟨2, 3, 1, 1⟩], ⟨0, 0, 800, 600⟩, ⟨0, 0, 0, 0⟩) :
              List SDL_Rect × SDL_Rect × SDL_Rect)).length ∧
        evss.map fpsLines =
          (List.range (List.replicate 250
            (([⟨2, 3, 1, 1⟩], ⟨0, 0, 800, 600⟩, ⟨0, 0, 0, 0⟩) :
              List SDL_Rect × SDL_Rect × SDL_Rect)).length).map
            (fun k => if (k + 1) % 100 = 0 then 1 else 0) ∧
        (evss.map fpsLines).sum =
          (List.replicate 250
            (([⟨2, 3, 1, 1⟩], ⟨0, 0, 800, 600⟩, ⟨0, 0, 0, 0⟩) :
              List SDL_Rect × SDL_Rect × SDL_Rect)).length / 100 :=
  ⟨fun _ => rfl, fun _ => rfl, by decide,
    (render_ticks_and_reports_fps FrameTimer.ops).2 (fun _ => rfl) (fun _ => rfl)
      (RenderSystem.construct 800 600 32) ⟨0, 2, some 1, fun _ => some 2⟩ "platformer" false
      (List.replicate 250 ([⟨2, 3, 1, 1⟩], ⟨0, 0, 800, 600⟩, ⟨0, 0, 0, 0⟩)) (by decide)⟩

end Platformer
